import Mathlib

/-!
Shallow embedding of the order-lifecycle logic of the banana-marketplace
repository: the two scheduled cancellation sweep jobs
(`supabase/functions/check-farm-confirm` and
`supabase/functions/auto-cancel-orders`), the buyer review submission
(`UserOrders.submitReview`), and the farm-side status-update operations
(`OrderDetail.updateStatus`, the `FarmOrders` ship modal and the
farm-orders cancel button).

Timestamps and dates are modelled as integers: for the stale-pending sweep
the unit is hours (the code compares `created_at` against `now - 48` hours),
for the post-harvest sweep the unit is days (the code compares
`harvest_date` against `today - 7` days).  External effects that can fail
(the initial fetch, each per-row update) are modelled by explicit oracles:
an optional fetch error and a list of order ids whose update fails.
Notification inserts are not error-checked in the source, so they are
modelled as always appending.
-/

namespace Banana

/-- Order status enum, from the `order_status` SQL type:
('pending', 'confirmed', 'shipped', 'delivered', 'cancelled', 'reviewed'). -/
inductive OrderStatus where
  | pending
  | confirmed
  | shipped
  | delivered
  | cancelled
  | reviewed
deriving DecidableEq

/-- A row of the `orders` table, restricted to the columns the embedded
operations read or write. -/
structure Order where
  id : Nat
  user_id : Nat
  farm_id : Nat
  product_id : Nat
  status : OrderStatus
  created_at : Int
  confirmed_at : Option Int := none
  shipped_at : Option Int := none
  delivered_at : Option Int := none
  cancelled_at : Option Int := none
  cancellation_reason : Option String := none
  tracking_number : Option String := none
deriving DecidableEq

/-- A row of the `products` table, restricted to the columns used by the
post-harvest sweep (`harvest_date` drives its filter). -/
structure Product where
  id : Nat
  farm_id : Nat
  harvest_date : Int
deriving DecidableEq

/-- A row of the `notifications` table, as inserted by the sweep jobs. -/
structure Notification where
  user_id : Nat
  title : String
  message : String
  type : String
  related_order_id : Option Nat
deriving DecidableEq

/-- A row of the `reviews` table, as inserted by `submitReview`. -/
structure Review where
  order_id : Nat
  farm_id : Nat
  user_id : Nat
  rating : Nat
  comment : String
deriving DecidableEq

/-- A row of the `reservations` table as used by the farm-orders page
variant that lists reservations with an order-status column and updates
them in place (confirm / cancel buttons). -/
structure ReservationRow where
  id : Nat
  status : OrderStatus
  quantity : Nat
  created_at : Int
  confirmed_at : Option Int := none
  cancelled_at : Option Int := none
  cancellation_reason : Option String := none
  tracking_number : Option String := none
deriving DecidableEq

/-- The slice of the data store the embedded operations touch. -/
structure Store where
  orders : List Order
  products : List Product
  notifications : List Notification
  reviews : List Review
  reservations : List ReservationRow
deriving DecidableEq

/-- HTTP response of a sweep handler: `ok` carries the JSON
`{ success: true, message }` body's message; `err` carries the status code
and the JSON `{ error }` body's message. -/
inductive Response where
  | ok (message : String)
  | err (status : Nat) (message : String)
deriving DecidableEq

/-! ## Sweep job 1: check-farm-confirm (stale-pending cancellation) -/

/-- Filter of the stale-pending sweep's fetch:
`.eq('status', 'pending').lt('created_at', twoDaysAgo)` where
`twoDaysAgo` is the current time minus 48 hours. -/
def stalePendingPred (now : Int) (o : Order) : Bool :=
  o.status == OrderStatus.pending && o.created_at < now - 48

/-- The update record the stale-pending sweep applies to a matched order:
`{ status: 'cancelled', cancelled_at: now, cancellation_reason: 'Farm did
not confirm within 48 hours' }`, applied to the row with the matching id. -/
def cancelStale (now : Int) (r : Order) : Order :=
  { r with status := OrderStatus.cancelled,
           cancelled_at := some now,
           cancellation_reason := some "Farm did not confirm within 48 hours" }

/-- The two notification rows the stale-pending sweep inserts for a
cancelled order: one to the buyer (`user_id`), one to the farm (`farm_id`). -/
def emitStale (o : Order) : List Notification :=
  [ { user_id := o.user_id,
      title := "Order Cancelled",
      message := "Your order was cancelled as the farm did not confirm within 48 hours.",
      type := "order_cancelled",
      related_order_id := some o.id },
    { user_id := o.farm_id,
      title := "Missed Confirmation",
      message := "An order was auto-cancelled due to no confirmation within 48 hours.",
      type := "confirmation_missed",
      related_order_id := some o.id } ]

/-- The per-order loop shared by both sweep handlers: for each fetched
order, if its row update fails (`fails` oracle) it is skipped
(`continue`), otherwise the row with that id is updated with the
handler's cancel record and the handler's notifications are inserted. -/
def processOrders (cancel : Order → Order) (emit : Order → List Notification)
    (fails : List Nat) : List Order → Store → Store
  | [], st => st
  | o :: rest, st =>
      if fails.contains o.id then
        processOrders cancel emit fails rest st
      else
        processOrders cancel emit fails rest
          { st with
            orders := st.orders.map (fun r => if r.id == o.id then cancel r else r),
            notifications := st.notifications ++ emit o }

/-- The check-farm-confirm handler body (after the CORS short-circuit):
fetch pending orders older than 48 hours; on fetch error return 500 with
the error message; otherwise cancel each (skipping failed row updates),
notify buyer and farm, and report `Cancelled N unconfirmed orders` where
`N` is the length of the fetched list. -/
def checkFarmConfirm (s : Store) (fetchErr : Option String) (fails : List Nat)
    (now : Int) : Store × Response :=
  match fetchErr with
  | some e => (s, Response.err 500 e)
  | none =>
      let expiredOrders := s.orders.filter (stalePendingPred now)
      let s2 := processOrders (cancelStale now) emitStale fails expiredOrders s
      (s2, Response.ok ("Cancelled " ++ toString expiredOrders.length ++ " unconfirmed orders"))

/-! ## Sweep job 2: auto-cancel-orders (post-harvest-window cancellation) -/

/-- Filter of the post-harvest sweep's fetch:
`.in('status', ['pending', 'confirmed'])` joined (inner) with `products`
and `.lt('products.harvest_date', sevenDaysAgo)` where `sevenDaysAgo` is
today minus 7 days; an order whose product is missing is dropped by the
inner join. -/
def postHarvestPred (products : List Product) (today : Int) (o : Order) : Bool :=
  (o.status == OrderStatus.pending || o.status == OrderStatus.confirmed)
  && (match products.find? (fun p => p.id == o.product_id) with
      | some p => p.harvest_date < today - 7
      | none => false)

/-- The update record the post-harvest sweep applies to a matched order. -/
def cancelHarvest (now : Int) (r : Order) : Order :=
  { r with status := OrderStatus.cancelled,
           cancelled_at := some now,
           cancellation_reason := some "Auto-cancelled: Exceeded 7 days after harvest date" }

/-- The single notification row the post-harvest sweep inserts for a
cancelled order, addressed to the buyer only. -/
def emitHarvest (o : Order) : List Notification :=
  [ { user_id := o.user_id,
      title := "Order Cancelled",
      message := "Your order was automatically cancelled as it exceeded the pickup window.",
      type := "order_cancelled",
      related_order_id := some o.id } ]

/-- The auto-cancel-orders handler body (after the CORS short-circuit):
fetch pending/confirmed orders whose product's harvest date is more than
7 days past; on fetch error return 500 with the error message; otherwise
cancel each (skipping failed row updates), notify the buyer, and report
`Cancelled N orders` where `N` is the length of the fetched list. -/
def autoCancelOrders (s : Store) (fetchErr : Option String) (fails : List Nat)
    (today : Int) : Store × Response :=
  match fetchErr with
  | some e => (s, Response.err 500 e)
  | none =>
      let ordersToCancel := s.orders.filter (postHarvestPred s.products today)
      let s2 := processOrders (cancelHarvest today) emitHarvest fails ordersToCancel s
      (s2, Response.ok ("Cancelled " ++ toString ordersToCancel.length ++ " orders"))

/-! ## Buyer review submission (UserOrders.submitReview) -/

/-- Review submission from the buyer's orders page: first a duplicate
check (`reviews.select('id').eq('order_id', selectedOrder.id).maybeSingle()`);
if a review exists the submission is rejected with no write.  Otherwise a
review row is inserted with `order_id`, `farm_id` and `user_id` all set to
`selectedOrder.id`; if the insert fails (`insertErr`) the function returns
with no further write; otherwise the order row's status is set to
`reviewed`.  Returns the store and whether the submission succeeded. -/
def submitReview (s : Store) (sel : Order) (rating : Nat) (comment : String)
    (insertErr : Bool) : Store × Bool :=
  match s.reviews.find? (fun r => r.order_id == sel.id) with
  | some _ => (s, false)
  | none =>
      if insertErr then (s, false)
      else
        let s1 := { s with reviews := s.reviews ++
          [({ order_id := sel.id, farm_id := sel.id, user_id := sel.id,
              rating := rating, comment := comment } : Review)] }
        let s2 := { s1 with orders := s1.orders.map (fun o =>
          if o.id == sel.id then { o with status := OrderStatus.reviewed } else o) }
        (s2, true)

/-! ## Farm-side status updates -/

/-- JavaScript `String.prototype.trim`: strips leading and trailing
whitespace. -/
def jsTrim (s : String) : String :=
  String.mk (((s.toList.dropWhile Char.isWhitespace).reverse.dropWhile
      Char.isWhitespace).reverse)

/-- The update record built by `OrderDetail.updateStatus`: status plus a
per-transition field.  The shipped branch rejects an empty (after trim)
tracking number before any write, returning `none`; otherwise the record
carries `shipped_at` and the trimmed tracking number. -/
structure OrderDetailUpdate where
  status : OrderStatus
  confirmed_at : Option Int := none
  shipped_at : Option Int := none
  delivered_at : Option Int := none
  tracking_number : Option String := none
deriving DecidableEq

/-- Embeds `OrderDetail.updateStatus`: returns the update record written
to the order's row, or `none` when the operation returns without issuing
a write (shipped with a blank tracking number). -/
def odUpdateStatus (newStatus : OrderStatus) (trackingNumber : String)
    (now : Int) : Option OrderDetailUpdate :=
  if newStatus == OrderStatus.shipped && jsTrim trackingNumber == "" then
    none
  else
    some { status := newStatus,
           confirmed_at := if newStatus == OrderStatus.confirmed then some now else none,
           shipped_at := if newStatus == OrderStatus.shipped then some now else none,
           delivered_at := if newStatus == OrderStatus.delivered then some now else none,
           tracking_number :=
             if newStatus == OrderStatus.shipped then some (jsTrim trackingNumber) else none }

/-- The update record written by the `FarmOrders` ship modal. -/
structure ShipUpdate where
  carrier : String
  tracking_number : String
  shipped_at : Int
deriving DecidableEq

/-- Embeds the `FarmOrders` ship modal's Confirm button: the button is
disabled while `!carrier.trim() || !tracking.trim()`, so no write is
issued (`none`) unless both are non-blank; the click handler then writes
status shipped with the trimmed carrier and tracking number. -/
def shipConfirm (carrier tracking : String) (now : Int) : Option ShipUpdate :=
  if jsTrim carrier == "" || jsTrim tracking == "" then
    none
  else
    some { carrier := jsTrim carrier,
           tracking_number := jsTrim tracking,
           shipped_at := now }

/-- Embeds the farm-orders list's cancel button:
`updateStatus(o.id, 'cancelled', \x7b cancelled_at: new Date() \x7d)` -- an
update of the reservation row with the matching id setting status and
`cancelled_at` but not touching the cancellation reason. -/
def farmOrdersCancel (s : Store) (id : Nat) (now : Int) : Store :=
  { s with reservations := s.reservations.map (fun r =>
      if r.id == id then
        { r with status := OrderStatus.cancelled, cancelled_at := some now }
      else r) }

end Banana
namespace Banana

/-! ## Concrete instances used for witnesses and counterexamples -/

/-- A stale pending order (created at time 0). -/
def wOrder1 : Order :=
  { id := 1
    user_id := 10
    farm_id := 20
    product_id := 100
    status := OrderStatus.pending
    created_at := 0 }

/-- A confirmed order whose product's harvest window has passed. -/
def wOrder2 : Order :=
  { id := 2
    user_id := 11
    farm_id := 21
    product_id := 100
    status := OrderStatus.confirmed
    created_at := 0 }

/-- Another stale pending order. -/
def wOrder3 : Order :=
  { id := 3
    user_id := 12
    farm_id := 22
    product_id := 100
    status := OrderStatus.pending
    created_at := 0 }

/-- A delivered order, matched by neither sweep predicate. -/
def wOrder4 : Order :=
  { id := 4
    user_id := 13
    farm_id := 23
    product_id := 100
    status := OrderStatus.delivered
    created_at := 90 }

/-- A product harvested at time 0. -/
def wProduct : Product :=
  { id := 100
    farm_id := 20
    harvest_date := 0 }

/-- A small store exercising both sweep jobs and the review flow. -/
def wStore : Store :=
  { orders := [wOrder1, wOrder2, wOrder3, wOrder4]
    products := [wProduct]
    notifications := []
    reviews := []
    reservations := [] }

/-- A pending reservation row with no cancellation reason set. -/
def wRes : ReservationRow :=
  { id := 1
    status := OrderStatus.pending
    quantity := 2
    created_at := 0 }

/-- A store holding only the reservation row above. -/
def wStoreRes : Store :=
  { orders := []
    products := []
    notifications := []
    reviews := []
    reservations := [wRes] }

/-! ## Helper lemmas about the sweep loop -/

theorem cancelStale_id (now : Int) (r : Order) : (cancelStale now r).id = r.id := rfl

theorem cancelStale_idem (now : Int) (r : Order) :
    cancelStale now (cancelStale now r) = cancelStale now r := rfl

theorem cancelHarvest_id (now : Int) (r : Order) : (cancelHarvest now r).id = r.id := rfl

theorem cancelHarvest_idem (now : Int) (r : Order) :
    cancelHarvest now (cancelHarvest now r) = cancelHarvest now r := rfl

theorem filter_key_map (g : Order → Order) (hg : ∀ r, (g r).id = r.id) (k : Nat)
    (l : List Order) :
    (l.map g).filter (fun r => r.id == k) = (l.filter (fun r => r.id == k)).map g := by
  induction l with
  | nil => rfl
  | cons a t ih =>
      simp only [List.map_cons, List.filter_cons, hg a]
      cases h : (a.id == k) <;> simp [h, ih]

theorem filter_key_nil (k : Nat) (l : List Order) (h : k ∉ l.map Order.id) :
    l.filter (fun r => r.id == k) = [] := by
  induction l with
  | nil => rfl
  | cons a t ih =>
      simp only [List.map_cons, List.mem_cons, not_or] at h
      have ha : (a.id == k) = false := beq_eq_false_iff_ne.mpr (fun hc => h.1 hc.symm)
      simp [List.filter_cons, ha, ih h.2]

theorem filter_key_mem (l : List Order) (o : Order)
    (hN : (l.map Order.id).Nodup) (ho : o ∈ l) :
    l.filter (fun r => r.id == o.id) = [o] := by
  induction l with
  | nil => cases ho
  | cons a t ih =>
      rw [List.map_cons, List.nodup_cons] at hN
      rcases List.mem_cons.mp ho with h | h
      · subst h
        simp [List.filter_cons, filter_key_nil o.id t hN.1]
      · have hne : (a.id == o.id) = false := by
          refine beq_eq_false_iff_ne.mpr (fun hc => hN.1 ?h)
          rw [hc]
          exact List.mem_map_of_mem Order.id h
        simp [List.filter_cons, hne, ih hN.2 h]

theorem nodup_ids_filter (l : List Order) (p : Order → Bool)
    (h : (l.map Order.id).Nodup) : ((l.filter p).map Order.id).Nodup :=
  h.sublist ((List.filter_sublist l).map Order.id)

theorem processOrders_cons_mem (cancel : Order → Order) (emit : Order → List Notification)
    (fails : List Nat) (o : Order) (rest : List Order) (st : Store)
    (h : o.id ∈ fails) :
    processOrders cancel emit fails (o :: rest) st
      = processOrders cancel emit fails rest st := by
  simp [processOrders, h]

theorem processOrders_cons_not_mem (cancel : Order → Order) (emit : Order → List Notification)
    (fails : List Nat) (o : Order) (rest : List Order) (st : Store)
    (h : o.id ∉ fails) :
    processOrders cancel emit fails (o :: rest) st
      = processOrders cancel emit fails rest
          { st with
            orders := st.orders.map (fun r => if r.id == o.id then cancel r else r),
            notifications := st.notifications ++ emit o } := by
  simp [processOrders, h]

theorem processOrders_orders (cancel : Order → Order) (emit : Order → List Notification)
    (fails : List Nat)
    (hid : ∀ r, (cancel r).id = r.id)
    (hidem : ∀ r, cancel (cancel r) = cancel r)
    (lst : List Order) (st : Store) :
    (processOrders cancel emit fails lst st).orders
      = st.orders.map (fun r =>
          if lst.any (fun o => o.id == r.id) && !(fails.contains r.id) then cancel r else r) := by
  induction lst generalizing st with
  | nil =>
      simp [processOrders]
  | cons o rest ih =>
      by_cases hf : o.id ∈ fails
      · rw [processOrders_cons_mem cancel emit fails o rest st hf, ih]
        apply List.map_congr_left
        intro r hr
        by_cases hio : r.id = o.id
        · simp [hio, hf]
        · have hio' : ¬(o.id = r.id) := fun hc => hio hc.symm
          simp [List.any_cons, hio']
      · rw [processOrders_cons_not_mem cancel emit fails o rest st hf, ih, List.map_map]
        apply List.map_congr_left
        intro r hr
        simp only [Function.comp_apply]
        by_cases hio : r.id = o.id
        · rw [if_pos (beq_iff_eq.mpr hio)]
          simp only [hid, hio]
          by_cases hany : ∃ x ∈ rest, x.id = o.id
          · simp [hany, hf, hidem]
          · simp [hany, hf]
        · have hio' : ¬(o.id = r.id) := fun hc => hio hc.symm
          have e1 : (r.id == o.id) = false := beq_eq_false_iff_ne.mpr hio
          have e2 : (if r.id == o.id then cancel r else r) = r := by simp [e1]
          rw [e2]
          simp [List.any_cons, hio']

theorem processOrders_notifications (cancel : Order → Order)
    (emit : Order → List Notification) (fails : List Nat)
    (lst : List Order) (st : Store) :
    (processOrders cancel emit fails lst st).notifications
      = st.notifications
        ++ (lst.filter (fun o => !(fails.contains o.id))).flatMap emit := by
  induction lst generalizing st with
  | nil => simp [processOrders]
  | cons o rest ih =>
      by_cases hf : o.id ∈ fails
      · rw [processOrders_cons_mem cancel emit fails o rest st hf, ih]
        simp [List.filter_cons, hf]
      · rw [processOrders_cons_not_mem cancel emit fails o rest st hf, ih]
        simp [List.filter_cons, hf, List.append_assoc]

theorem processOrders_products (cancel : Order → Order)
    (emit : Order → List Notification) (fails : List Nat)
    (lst : List Order) (st : Store) :
    (processOrders cancel emit fails lst st).products = st.products := by
  induction lst generalizing st with
  | nil => rfl
  | cons o rest ih =>
      by_cases hf : o.id ∈ fails
      · rw [processOrders_cons_mem cancel emit fails o rest st hf, ih]
      · rw [processOrders_cons_not_mem cancel emit fails o rest st hf, ih]

theorem processOrders_reviews (cancel : Order → Order)
    (emit : Order → List Notification) (fails : List Nat)
    (lst : List Order) (st : Store) :
    (processOrders cancel emit fails lst st).reviews = st.reviews := by
  induction lst generalizing st with
  | nil => rfl
  | cons o rest ih =>
      by_cases hf : o.id ∈ fails
      · rw [processOrders_cons_mem cancel emit fails o rest st hf, ih]
      · rw [processOrders_cons_not_mem cancel emit fails o rest st hf, ih]

theorem processOrders_reservations (cancel : Order → Order)
    (emit : Order → List Notification) (fails : List Nat)
    (lst : List Order) (st : Store) :
    (processOrders cancel emit fails lst st).reservations = st.reservations := by
  induction lst generalizing st with
  | nil => rfl
  | cons o rest ih =>
      by_cases hf : o.id ∈ fails
      · rw [processOrders_cons_mem cancel emit fails o rest st hf, ih]
      · rw [processOrders_cons_not_mem cancel emit fails o rest st hf, ih]

/-! ## Handler-level characterizations -/

theorem checkFarmConfirm_store (s : Store) (fails : List Nat) (now : Int) :
    (checkFarmConfirm s none fails now).1
      = processOrders (cancelStale now) emitStale fails
          (s.orders.filter (stalePendingPred now)) s := rfl

theorem checkFarmConfirm_response (s : Store) (fails : List Nat) (now : Int) :
    (checkFarmConfirm s none fails now).2
      = Response.ok ("Cancelled "
          ++ toString (s.orders.filter (stalePendingPred now)).length
          ++ " unconfirmed orders") := rfl

theorem autoCancelOrders_store (s : Store) (fails : List Nat) (today : Int) :
    (autoCancelOrders s none fails today).1
      = processOrders (cancelHarvest today) emitHarvest fails
          (s.orders.filter (postHarvestPred s.products today)) s := rfl

theorem autoCancelOrders_response (s : Store) (fails : List Nat) (today : Int) :
    (autoCancelOrders s none fails today).2
      = Response.ok ("Cancelled "
          ++ toString (s.orders.filter (postHarvestPred s.products today)).length
          ++ " orders") := rfl

theorem filter_pred_key (l : List Order) (p : Order → Bool) (o : Order)
    (hN : (l.map Order.id).Nodup) (ho : o ∈ l) :
    (l.filter p).filter (fun r => r.id == o.id) = if p o then [o] else [] := by
  rw [List.filter_comm, filter_key_mem l o hN ho]
  simp [List.filter_cons]

theorem any_key_filter (l : List Order) (p : Order → Bool) (o : Order)
    (hN : (l.map Order.id).Nodup) (ho : o ∈ l) :
    (l.filter p).any (fun x => x.id == o.id) = p o := by
  cases hp : p o with
  | false =>
      apply Bool.eq_false_iff.mpr
      intro hc
      obtain ⟨x, hx, hbeq⟩ := List.any_eq_true.mp hc
      have hmem : x ∈ (l.filter p).filter (fun r => r.id == o.id) :=
        List.mem_filter.mpr ⟨hx, by simpa using hbeq⟩
      rw [filter_pred_key l p o hN ho, hp] at hmem
      simp at hmem
  | true =>
      exact List.any_eq_true.mpr ⟨o, List.mem_filter.mpr ⟨ho, hp⟩, by simp⟩

theorem flatMap_filter_related (emit : Order → List Notification) (k : Nat)
    (hemit : ∀ x n, n ∈ emit x → n.related_order_id = some x.id)
    (lst : List Order) :
    (lst.flatMap emit).filter (fun n => n.related_order_id == some k)
      = (lst.filter (fun x => x.id == k)).flatMap emit := by
  induction lst with
  | nil => rfl
  | cons a t ih =>
      rw [List.flatMap_cons, List.filter_append, ih, List.filter_cons]
      by_cases hk : a.id = k
      · have h1 : (emit a).filter (fun n => n.related_order_id == some k) = emit a :=
          List.filter_eq_self.mpr (fun n hn => by rw [hemit a n hn, hk]; simp)
        simp [h1, hk, List.flatMap_cons]
      · have h1 : (emit a).filter (fun n => n.related_order_id == some k) = [] := by
          refine List.filter_eq_nil_iff.mpr (fun n hn => ?h)
          rw [hemit a n hn]
          simp [hk]
        simp [h1, hk]

theorem emitStale_related (x : Order) (n : Notification) (hn : n ∈ emitStale x) :
    n.related_order_id = some x.id := by
  rcases List.mem_cons.mp hn with h | h
  · subst h; rfl
  · rcases List.mem_cons.mp h with h2 | h2
    · subst h2; rfl
    · cases h2

theorem emitHarvest_related (x : Order) (n : Notification) (hn : n ∈ emitHarvest x) :
    n.related_order_id = some x.id := by
  rcases List.mem_cons.mp hn with h | h
  · subst h; rfl
  · cases h

theorem checkFarmConfirm_row (s : Store) (fails : List Nat) (now : Int) (o : Order)
    (hN : (s.orders.map Order.id).Nodup) (ho : o ∈ s.orders) :
    (checkFarmConfirm s none fails now).1.orders.filter (fun r => r.id == o.id)
      = [if stalePendingPred now o && !(fails.contains o.id) then cancelStale now o else o] := by
  rw [checkFarmConfirm_store,
      processOrders_orders _ _ _ (cancelStale_id now) (cancelStale_idem now)]
  have hg : ∀ r : Order,
      ((fun r => if (s.orders.filter (stalePendingPred now)).any (fun o => o.id == r.id)
            && !(fails.contains r.id) then cancelStale now r else r) r).id = r.id := by
    intro r
    dsimp only
    split <;> rfl
  rw [filter_key_map _ hg o.id s.orders, filter_key_mem s.orders o hN ho]
  simp only [List.map_cons, List.map_nil]
  have ha : (s.orders.filter (stalePendingPred now)).any (fun x => x.id == o.id)
      = stalePendingPred now o := any_key_filter s.orders (stalePendingPred now) o hN ho
  rw [ha]

theorem checkFarmConfirm_notifs (s : Store) (fails : List Nat) (now : Int) (o : Order)
    (hN : (s.orders.map Order.id).Nodup) (ho : o ∈ s.orders) :
    (checkFarmConfirm s none fails now).1.notifications.filter
        (fun n => n.related_order_id == some o.id)
      = s.notifications.filter (fun n => n.related_order_id == some o.id)
        ++ (if stalePendingPred now o && !(fails.contains o.id) then emitStale o else []) := by
  rw [checkFarmConfirm_store, processOrders_notifications, List.filter_append]
  congr 1
  rw [flatMap_filter_related emitStale o.id emitStale_related,
      List.filter_comm, filter_pred_key s.orders (stalePendingPred now) o hN ho]
  by_cases hp : stalePendingPred now o = true <;>
    by_cases hc : o.id ∈ fails <;>
      simp [hp, hc, List.filter_cons]

theorem autoCancelOrders_row (s : Store) (fails : List Nat) (today : Int) (o : Order)
    (hN : (s.orders.map Order.id).Nodup) (ho : o ∈ s.orders) :
    (autoCancelOrders s none fails today).1.orders.filter (fun r => r.id == o.id)
      = [if postHarvestPred s.products today o && !(fails.contains o.id)
          then cancelHarvest today o else o] := by
  rw [autoCancelOrders_store,
      processOrders_orders _ _ _ (cancelHarvest_id today) (cancelHarvest_idem today)]
  have hg : ∀ r : Order,
      ((fun r => if (s.orders.filter (postHarvestPred s.products today)).any
            (fun o => o.id == r.id) && !(fails.contains r.id)
          then cancelHarvest today r else r) r).id = r.id := by
    intro r
    dsimp only
    split <;> rfl
  rw [filter_key_map _ hg o.id s.orders, filter_key_mem s.orders o hN ho]
  simp only [List.map_cons, List.map_nil]
  have ha : (s.orders.filter (postHarvestPred s.products today)).any (fun x => x.id == o.id)
      = postHarvestPred s.products today o :=
    any_key_filter s.orders (postHarvestPred s.products today) o hN ho
  rw [ha]

theorem autoCancelOrders_notifs (s : Store) (fails : List Nat) (today : Int) (o : Order)
    (hN : (s.orders.map Order.id).Nodup) (ho : o ∈ s.orders) :
    (autoCancelOrders s none fails today).1.notifications.filter
        (fun n => n.related_order_id == some o.id)
      = s.notifications.filter (fun n => n.related_order_id == some o.id)
        ++ (if postHarvestPred s.products today o && !(fails.contains o.id)
            then emitHarvest o else []) := by
  rw [autoCancelOrders_store, processOrders_notifications, List.filter_append]
  congr 1
  rw [flatMap_filter_related emitHarvest o.id emitHarvest_related,
      List.filter_comm, filter_pred_key s.orders (postHarvestPred s.products today) o hN ho]
  by_cases hp : postHarvestPred s.products today o = true <;>
    by_cases hc : o.id ∈ fails <;>
      simp [hp, hc, List.filter_cons]

/-! ## Claims -/

/-- C1: For every order with status pending whose creation time is older than
48 hours at the time of a stale-pending sweep run, the run sets its status to
cancelled (with `cancelled_at` and a fixed reason string) and emits exactly
two notifications, one to the buyer and one to the farm. -/
theorem C1_stale_sweep_cancels_and_notifies
    (s : Store) (now : Int) (fails : List Nat) (o : Order)
    (hN : (s.orders.map Order.id).Nodup)
    (ho : o ∈ s.orders)
    (hpred : stalePendingPred now o = true)
    (hok : fails.contains o.id = false) :
    (checkFarmConfirm s none fails now).1.orders.filter (fun r => r.id == o.id)
      = [{ o with status := OrderStatus.cancelled,
                  cancelled_at := some now,
                  cancellation_reason := some "Farm did not confirm within 48 hours" }]
    ∧ (checkFarmConfirm s none fails now).1.notifications.filter
          (fun n => n.related_order_id == some o.id)
      = s.notifications.filter (fun n => n.related_order_id == some o.id)
        ++ [{ user_id := o.user_id, title := "Order Cancelled",
              message := "Your order was cancelled as the farm did not confirm within 48 hours.",
              type := "order_cancelled", related_order_id := some o.id },
            { user_id := o.farm_id, title := "Missed Confirmation",
              message := "An order was auto-cancelled due to no confirmation within 48 hours.",
              type := "confirmation_missed", related_order_id := some o.id }] := by
  constructor
  · rw [checkFarmConfirm_row s fails now o hN ho, hpred, hok]
    rfl
  · rw [checkFarmConfirm_notifs s fails now o hN ho, hpred, hok]
    rfl

/-- C1 witness: a concrete run of the stale-pending sweep on `wStore`
cancelling `wOrder1`. -/
theorem C1_witness :
    stalePendingPred 100 wOrder1 = true
    ∧ (checkFarmConfirm wStore none [] 100).1.orders.filter (fun r => r.id == wOrder1.id)
      = [{ wOrder1 with status := OrderStatus.cancelled,
                        cancelled_at := some 100,
                        cancellation_reason := some "Farm did not confirm within 48 hours" }] :=
  ⟨by decide,
   (C1_stale_sweep_cancels_and_notifies wStore 100 [] wOrder1
      (by decide) (by decide) (by decide) (by decide)).1⟩

/-- C2: For every order with status in pending or confirmed whose linked
product's harvest date is more than 7 days in the past at the time of a
post-harvest-window sweep run, the run sets its status to cancelled with a
fixed reason and emits exactly one notification, to the buyer only. -/
theorem C2_harvest_sweep_cancels_and_notifies
    (s : Store) (today : Int) (fails : List Nat) (o : Order)
    (hN : (s.orders.map Order.id).Nodup)
    (ho : o ∈ s.orders)
    (hpred : postHarvestPred s.products today o = true)
    (hok : fails.contains o.id = false) :
    (autoCancelOrders s none fails today).1.orders.filter (fun r => r.id == o.id)
      = [{ o with status := OrderStatus.cancelled,
                  cancelled_at := some today,
                  cancellation_reason := some "Auto-cancelled: Exceeded 7 days after harvest date" }]
    ∧ (autoCancelOrders s none fails today).1.notifications.filter
          (fun n => n.related_order_id == some o.id)
      = s.notifications.filter (fun n => n.related_order_id == some o.id)
        ++ [{ user_id := o.user_id, title := "Order Cancelled",
              message := "Your order was automatically cancelled as it exceeded the pickup window.",
              type := "order_cancelled", related_order_id := some o.id }] := by
  constructor
  · rw [autoCancelOrders_row s fails today o hN ho, hpred, hok]
    rfl
  · rw [autoCancelOrders_notifs s fails today o hN ho, hpred, hok]
    rfl

/-- C2 witness: a concrete run of the post-harvest sweep on `wStore`
cancelling the confirmed order `wOrder2`. -/
theorem C2_witness :
    postHarvestPred wStore.products 100 wOrder2 = true
    ∧ (autoCancelOrders wStore none [] 100).1.notifications.filter
        (fun n => n.related_order_id == some wOrder2.id)
      = wStore.notifications.filter (fun n => n.related_order_id == some wOrder2.id)
        ++ [{ user_id := wOrder2.user_id, title := "Order Cancelled",
              message := "Your order was automatically cancelled as it exceeded the pickup window.",
              type := "order_cancelled", related_order_id := some wOrder2.id }] :=
  ⟨by decide,
   (C2_harvest_sweep_cancels_and_notifies wStore 100 [] wOrder2
      (by decide) (by decide) (by decide) (by decide)).2⟩

/-- C3: For every order that satisfies neither the stale-pending predicate
nor the post-harvest predicate, a run of either sweep job leaves that
order's row entirely unchanged and emits no notification for it. -/
theorem C3_frame_unmatched_orders
    (s : Store) (nowA todayB : Int) (failsA failsB : List Nat) (o : Order)
    (hN : (s.orders.map Order.id).Nodup) (ho : o ∈ s.orders)
    (hA : stalePendingPred nowA o = false)
    (hB : postHarvestPred s.products todayB o = false) :
    (checkFarmConfirm s none failsA nowA).1.orders.filter (fun r => r.id == o.id) = [o]
    ∧ (checkFarmConfirm s none failsA nowA).1.notifications.filter
        (fun n => n.related_order_id == some o.id)
      = s.notifications.filter (fun n => n.related_order_id == some o.id)
    ∧ (autoCancelOrders s none failsB todayB).1.orders.filter (fun r => r.id == o.id) = [o]
    ∧ (autoCancelOrders s none failsB todayB).1.notifications.filter
        (fun n => n.related_order_id == some o.id)
      = s.notifications.filter (fun n => n.related_order_id == some o.id) := by
  refine ⟨?a, ?b, ?c, ?d⟩
  · rw [checkFarmConfirm_row s failsA nowA o hN ho, hA]
    simp
  · rw [checkFarmConfirm_notifs s failsA nowA o hN ho, hA]
    simp
  · rw [autoCancelOrders_row s failsB todayB o hN ho, hB]
    simp
  · rw [autoCancelOrders_notifs s failsB todayB o hN ho, hB]
    simp

/-- C3 witness: the delivered order `wOrder4` is untouched by concrete runs
of both sweeps on `wStore`. -/
theorem C3_witness :
    (stalePendingPred 100 wOrder4 = false
      ∧ postHarvestPred wStore.products 100 wOrder4 = false)
    ∧ (checkFarmConfirm wStore none [] 100).1.orders.filter (fun r => r.id == wOrder4.id)
      = [wOrder4] :=
  ⟨⟨by decide, by decide⟩,
   (C3_frame_unmatched_orders wStore 100 100 [] [] wOrder4
      (by decide) (by decide) (by decide) (by decide)).1⟩

/-! ## Counting and idempotence helpers -/

theorem countP_or_disjoint (p q : Order → Bool) (l : List Order)
    (h : ∀ a ∈ l, p a = true → q a = false) :
    l.countP (fun a => p a || q a) = l.countP p + l.countP q := by
  induction l with
  | nil => rfl
  | cons a t ih =>
      rw [List.countP_cons, List.countP_cons, List.countP_cons,
          ih (fun x hx => h x (List.mem_cons_of_mem a hx))]
      by_cases hp : p a = true
      · have hq := h a (List.mem_cons_self a t) hp
        simp only [hp, hq]
        simp
        omega
      · have hp' : p a = false := Bool.eq_false_iff.mpr hp
        cases hqa : q a <;> simp [hp', hqa]
        omega

theorem countP_cancelled_after (cancel : Order → Order) (emit : Order → List Notification)
    (p : Order → Bool)
    (hid : ∀ r, (cancel r).id = r.id)
    (hidem : ∀ r, cancel (cancel r) = cancel r)
    (hstat : ∀ r, ((cancel r).status == OrderStatus.cancelled) = true)
    (hpc : ∀ r, p r = true → (r.status == OrderStatus.cancelled) = false)
    (s : Store) (hN : (s.orders.map Order.id).Nodup) :
    (processOrders cancel emit [] (s.orders.filter p) s).orders.countP
        (fun r => r.status == OrderStatus.cancelled)
      = s.orders.countP (fun r => r.status == OrderStatus.cancelled)
        + (s.orders.filter p).length := by
  rw [processOrders_orders _ _ _ hid hidem, List.countP_map]
  have hcong : s.orders.countP
      ((fun r => r.status == OrderStatus.cancelled) ∘ (fun r =>
        if (s.orders.filter p).any (fun o => o.id == r.id)
            && !(([] : List Nat).contains r.id) then cancel r else r))
      = s.orders.countP (fun r => p r || (r.status == OrderStatus.cancelled)) := by
    refine List.countP_congr ?h
    intro r hr
    simp only [Function.comp_apply]
    rw [any_key_filter s.orders p r hN hr]
    cases hp : p r
    · simp
    · simp [hstat r]
  rw [hcong, countP_or_disjoint p _ s.orders (fun a _ ha => hpc a ha),
      List.countP_eq_length_filter]
  omega

theorem processOrders_filter_nil (cancel : Order → Order) (emit : Order → List Notification)
    (p : Order → Bool)
    (hid : ∀ r, (cancel r).id = r.id)
    (hidem : ∀ r, cancel (cancel r) = cancel r)
    (hp : ∀ r, p (cancel r) = false) (s : Store) :
    ((processOrders cancel emit [] (s.orders.filter p) s).orders).filter p = [] := by
  rw [processOrders_orders _ _ _ hid hidem]
  refine List.filter_eq_nil_iff.mpr ?h
  intro x hx
  obtain ⟨r, hr, hgr⟩ := List.mem_map.mp hx
  subst hgr
  by_cases hc : (s.orders.filter p).any (fun o => o.id == r.id) = true
  · have e : (if (s.orders.filter p).any (fun o => o.id == r.id)
        && !(([] : List Nat).contains r.id) then cancel r else r) = cancel r := by
      simp [hc]
    rw [e]
    simp [hp r]
  · have hpr : p r = false := by
      apply Bool.eq_false_iff.mpr
      intro hpt
      exact hc (List.any_eq_true.mpr ⟨r, List.mem_filter.mpr ⟨hr, hpt⟩, by simp⟩)
    have e : (if (s.orders.filter p).any (fun o => o.id == r.id)
        && !(([] : List Nat).contains r.id) then cancel r else r) = r := by
      simp [Bool.eq_false_iff.mpr hc]
    rw [e]
    simp [hpr]

/-- C4 counterexample: on `wStore` both stale pending orders (ids 1 and 3)
match the fetch, but when both per-row updates fail the run performs no
cancellation at all while the response message still reports two. -/
theorem C4_counterexample :
    (checkFarmConfirm wStore none [1, 3] 100).2
      = Response.ok "Cancelled 2 unconfirmed orders"
    ∧ (wStore.orders.filter (fun r => r.status == OrderStatus.cancelled)).length = 0
    ∧ ((checkFarmConfirm wStore none [1, 3] 100).1.orders.filter
        (fun r => r.status == OrderStatus.cancelled)).length = 0 := by
  decide

/-- C4 (amended): each sweep handler's success message reports the number of
orders matched by the initial fetch, not the number of per-row updates that
succeeded; when no per-row update fails (and order ids are distinct) that
fetched count does equal the number of orders newly transitioned to
cancelled. -/
theorem C4_message_reports_fetched_count
    (s : Store) (fails : List Nat) (now today : Int)
    (hN : (s.orders.map Order.id).Nodup) :
    (checkFarmConfirm s none fails now).2
      = Response.ok ("Cancelled "
          ++ toString (s.orders.filter (stalePendingPred now)).length
          ++ " unconfirmed orders")
    ∧ (autoCancelOrders s none fails today).2
      = Response.ok ("Cancelled "
          ++ toString (s.orders.filter (postHarvestPred s.products today)).length
          ++ " orders")
    ∧ (checkFarmConfirm s none [] now).1.orders.countP
        (fun r => r.status == OrderStatus.cancelled)
      = s.orders.countP (fun r => r.status == OrderStatus.cancelled)
        + (s.orders.filter (stalePendingPred now)).length
    ∧ (autoCancelOrders s none [] today).1.orders.countP
        (fun r => r.status == OrderStatus.cancelled)
      = s.orders.countP (fun r => r.status == OrderStatus.cancelled)
        + (s.orders.filter (postHarvestPred s.products today)).length := by
  refine ⟨rfl, rfl, ?c, ?d⟩
  · rw [checkFarmConfirm_store]
    refine countP_cancelled_after (cancelStale now) emitStale (stalePendingPred now)
      (cancelStale_id now) (cancelStale_idem now) (fun r => rfl) ?hpc s hN
    intro r hr
    have hst : r.status = OrderStatus.pending := by
      have h1 := (Bool.and_eq_true _ _).mp hr
      exact beq_iff_eq.mp h1.1
    rw [hst]
    decide
  · rw [autoCancelOrders_store]
    refine countP_cancelled_after (cancelHarvest today) emitHarvest
      (postHarvestPred s.products today)
      (cancelHarvest_id today) (cancelHarvest_idem today) (fun r => rfl) ?hpc2 s hN
    intro r hr
    have h1 := (Bool.and_eq_true _ _).mp hr
    rcases Bool.or_eq_true_iff.mp h1.1 with h2 | h2
    · rw [beq_iff_eq.mp h2]
      decide
    · rw [beq_iff_eq.mp h2]
      decide

/-- C4 witness: on `wStore` with no per-row failures, the run cancels
exactly the two fetched stale orders. -/
theorem C4_witness :
    (wStore.orders.map Order.id).Nodup
    ∧ (checkFarmConfirm wStore none [] 100).1.orders.countP
        (fun r => r.status == OrderStatus.cancelled)
      = wStore.orders.countP (fun r => r.status == OrderStatus.cancelled)
        + (wStore.orders.filter (stalePendingPred 100)).length :=
  ⟨by decide, (C4_message_reports_fetched_count wStore [] 100 100 (by decide)).2.2.1⟩

/-- C5: Each sweep job is idempotent per run modulo the passage of time:
re-running the same sweep immediately on the result of a (failure-free)
run, with the same clock reading, cancels no further orders and emits no
further notifications, since cancelled orders no longer match the status
filter. -/
theorem C5_sweeps_idempotent (s : Store) (nowA todayB : Int)
    (fails2 fails2' : List Nat) :
    checkFarmConfirm (checkFarmConfirm s none [] nowA).1 none fails2 nowA
      = ((checkFarmConfirm s none [] nowA).1, Response.ok "Cancelled 0 unconfirmed orders")
    ∧ autoCancelOrders (autoCancelOrders s none [] todayB).1 none fails2' todayB
      = ((autoCancelOrders s none [] todayB).1, Response.ok "Cancelled 0 orders") := by
  constructor
  · have hA : ((processOrders (cancelStale nowA) emitStale []
        (s.orders.filter (stalePendingPred nowA)) s).orders).filter (stalePendingPred nowA)
        = [] :=
      processOrders_filter_nil (cancelStale nowA) emitStale (stalePendingPred nowA)
        (cancelStale_id nowA) (cancelStale_idem nowA) (fun r => rfl) s
    simp only [checkFarmConfirm]
    rw [hA]
    rfl
  · have hprod : (processOrders (cancelHarvest todayB) emitHarvest []
        (s.orders.filter (postHarvestPred s.products todayB)) s).products = s.products :=
      processOrders_products _ _ _ _ _
    have hB : ((processOrders (cancelHarvest todayB) emitHarvest []
        (s.orders.filter (postHarvestPred s.products todayB)) s).orders).filter
          (postHarvestPred s.products todayB) = [] :=
      processOrders_filter_nil (cancelHarvest todayB) emitHarvest
        (postHarvestPred s.products todayB)
        (cancelHarvest_id todayB) (cancelHarvest_idem todayB) (fun r => rfl) s
    simp only [autoCancelOrders]
    rw [hprod, hB]
    rfl

/-- C6: In both sweep jobs, a failure updating a single order's row is
caught and that row is skipped (row unchanged, no notifications emitted for
it, no rollback, no retry) while the run continues cancelling the remaining
matched rows; a failure of the initial fetch aborts the run, leaving the
store untouched, and returns an HTTP 500 response carrying the error
message. -/
theorem C6_per_row_and_fetch_failures
    (s : Store) (msg : String) (failsA failsB : List Nat) (nowA todayB : Int)
    (hN : (s.orders.map Order.id).Nodup)
    (o : Order) (ho : o ∈ s.orders)
    (hpA : stalePendingPred nowA o = true) (hfA : failsA.contains o.id = true)
    (o2 : Order) (ho2 : o2 ∈ s.orders)
    (hpA2 : stalePendingPred nowA o2 = true) (hfA2 : failsA.contains o2.id = false)
    (o3 : Order) (ho3 : o3 ∈ s.orders)
    (hpB : postHarvestPred s.products todayB o3 = true) (hfB : failsB.contains o3.id = true)
    (o4 : Order) (ho4 : o4 ∈ s.orders)
    (hpB2 : postHarvestPred s.products todayB o4 = true)
    (hfB2 : failsB.contains o4.id = false) :
    checkFarmConfirm s (some msg) failsA nowA = (s, Response.err 500 msg)
    ∧ autoCancelOrders s (some msg) failsB todayB = (s, Response.err 500 msg)
    ∧ (checkFarmConfirm s none failsA nowA).1.orders.filter (fun r => r.id == o.id) = [o]
    ∧ (checkFarmConfirm s none failsA nowA).1.notifications.filter
        (fun n => n.related_order_id == some o.id)
      = s.notifications.filter (fun n => n.related_order_id == some o.id)
    ∧ (checkFarmConfirm s none failsA nowA).1.orders.filter (fun r => r.id == o2.id)
      = [cancelStale nowA o2]
    ∧ (autoCancelOrders s none failsB todayB).1.orders.filter (fun r => r.id == o3.id) = [o3]
    ∧ (autoCancelOrders s none failsB todayB).1.notifications.filter
        (fun n => n.related_order_id == some o3.id)
      = s.notifications.filter (fun n => n.related_order_id == some o3.id)
    ∧ (autoCancelOrders s none failsB todayB).1.orders.filter (fun r => r.id == o4.id)
      = [cancelHarvest todayB o4] := by
  refine ⟨rfl, rfl, ?c, ?d, ?e, ?f, ?g, ?h⟩
  · rw [checkFarmConfirm_row s failsA nowA o hN ho, hpA, hfA]
    rfl
  · rw [checkFarmConfirm_notifs s failsA nowA o hN ho, hpA, hfA]
    simp
  · rw [checkFarmConfirm_row s failsA nowA o2 hN ho2, hpA2, hfA2]
    rfl
  · rw [autoCancelOrders_row s failsB todayB o3 hN ho3, hpB, hfB]
    rfl
  · rw [autoCancelOrders_notifs s failsB todayB o3 hN ho3, hpB, hfB]
    simp
  · rw [autoCancelOrders_row s failsB todayB o4 hN ho4, hpB2, hfB2]
    rfl

/-- C6 witness: on `wStore`, order 1 fails its update in both sweeps and is
left untouched while orders 3 (stale sweep) and 2 (post-harvest sweep) are
still cancelled; a fetch error returns 500. -/
theorem C6_witness :
    (stalePendingPred 100 wOrder1 = true ∧ postHarvestPred wStore.products 100 wOrder1 = true)
    ∧ checkFarmConfirm wStore (some "boom") [1] 100 = (wStore, Response.err 500 "boom")
    ∧ (checkFarmConfirm wStore none [1] 100).1.orders.filter (fun r => r.id == wOrder1.id)
      = [wOrder1]
    ∧ (checkFarmConfirm wStore none [1] 100).1.orders.filter (fun r => r.id == wOrder3.id)
      = [cancelStale 100 wOrder3] := by
  have h := C6_per_row_and_fetch_failures wStore "boom" [1] [1] 100 100
    (by decide)
    wOrder1 (by decide) (by decide) (by decide)
    wOrder3 (by decide) (by decide) (by decide)
    wOrder1 (by decide) (by decide) (by decide)
    wOrder2 (by decide) (by decide) (by decide)
  exact ⟨⟨by decide, by decide⟩, h.1, h.2.2.1, h.2.2.2.2.1⟩

/-- C7: A review can be submitted at most once per order: with no existing
review for the order, a submission succeeds, inserts exactly one review row
and flips the order's status to reviewed; an immediately following second
submission for the same order is rejected by the duplicate check before the
insert, inserting nothing and changing no order status. -/
theorem C7_review_at_most_once
    (s : Store) (sel : Order) (rating : Nat) (comment : String)
    (rating2 : Nat) (comment2 : String) (e2 : Bool)
    (hN : (s.orders.map Order.id).Nodup) (hsel : sel ∈ s.orders)
    (hno : s.reviews.find? (fun r => r.order_id == sel.id) = none) :
    (submitReview s sel rating comment false).2 = true
    ∧ (submitReview s sel rating comment false).1.reviews
      = s.reviews ++ [{ order_id := sel.id, farm_id := sel.id, user_id := sel.id,
                        rating := rating, comment := comment }]
    ∧ (submitReview s sel rating comment false).1.orders.filter (fun r => r.id == sel.id)
      = [{ sel with status := OrderStatus.reviewed }]
    ∧ submitReview (submitReview s sel rating comment false).1 sel rating2 comment2 e2
      = ((submitReview s sel rating comment false).1, false) := by
  have hrev : (submitReview s sel rating comment false).1.reviews
      = s.reviews ++ [{ order_id := sel.id, farm_id := sel.id, user_id := sel.id,
                        rating := rating, comment := comment }] := by
    simp [submitReview, hno]
  refine ⟨by simp [submitReview, hno], hrev, ?c, ?d⟩
  · have hord : (submitReview s sel rating comment false).1.orders
        = s.orders.map (fun o =>
            if o.id == sel.id then { o with status := OrderStatus.reviewed } else o) := by
      simp [submitReview, hno]
    rw [hord]
    have hg : ∀ r : Order,
        ((fun o => if o.id == sel.id then { o with status := OrderStatus.reviewed } else o)
          r).id = r.id := by
      intro r
      dsimp only
      split <;> rfl
    rw [filter_key_map _ hg sel.id s.orders, filter_key_mem s.orders sel hN hsel]
    simp
  · have hfind : (submitReview s sel rating comment false).1.reviews.find?
        (fun r => r.order_id == sel.id)
        = some { order_id := sel.id, farm_id := sel.id, user_id := sel.id,
                 rating := rating, comment := comment } := by
      rw [hrev, List.find?_append, hno]
      simp [List.find?]
    generalize hX : (submitReview s sel rating comment false).1 = s1 at hfind ⊢
    simp [submitReview, hfind]

/-- C7 witness: on `wStore`, the first review of order 1 succeeds and a
second attempt is rejected. -/
theorem C7_witness :
    wStore.reviews.find? (fun r => r.order_id == wOrder1.id) = none
    ∧ submitReview (submitReview wStore wOrder1 5 "good" false).1 wOrder1 4 "again" false
      = ((submitReview wStore wOrder1 5 "good" false).1, false) :=
  ⟨by decide,
   (C7_review_at_most_once wStore wOrder1 5 "good" 4 "again" false
      (by decide) (by decide) (by decide)).2.2.2⟩

/-- C8: A transition of an order to shipped with an empty or whitespace-only
tracking number is rejected by the UI layer before any store write (both in
the order-detail page and in the farm-orders ship modal), and any write
that does happen carries a non-empty trimmed tracking number. -/
theorem C8_shipping_requires_tracking
    (trackingNumber carrier tracking : String) (now : Int) :
    (jsTrim trackingNumber = "" →
      odUpdateStatus OrderStatus.shipped trackingNumber now = none)
    ∧ (∀ u, odUpdateStatus OrderStatus.shipped trackingNumber now = some u →
        u.status = OrderStatus.shipped
        ∧ u.tracking_number = some (jsTrim trackingNumber)
        ∧ jsTrim trackingNumber ≠ "")
    ∧ (jsTrim carrier = "" ∨ jsTrim tracking = "" →
        shipConfirm carrier tracking now = none)
    ∧ (∀ u, shipConfirm carrier tracking now = some u →
        u.tracking_number = jsTrim tracking ∧ jsTrim tracking ≠ "") := by
  refine ⟨?a, ?b, ?c, ?d⟩
  · intro h
    simp [odUpdateStatus, h]
  · intro u hu
    by_cases h : jsTrim trackingNumber = ""
    · simp [odUpdateStatus, h] at hu
    · simp [odUpdateStatus, h] at hu
      refine ⟨?b1, ?b2, h⟩
      · rw [← hu]
      · rw [← hu]
  · intro h
    rcases h with h | h <;> simp [shipConfirm, h]
  · intro u hu
    by_cases h1 : jsTrim carrier = ""
    · simp [shipConfirm, h1] at hu
    · by_cases h2 : jsTrim tracking = ""
      · simp [shipConfirm, h1, h2] at hu
      · simp [shipConfirm, h1, h2] at hu
        refine ⟨?d1, h2⟩
        rw [← hu]

/-- C8 witness: a whitespace-only tracking number blocks both write paths. -/
theorem C8_witness :
    jsTrim " " = ""
    ∧ odUpdateStatus OrderStatus.shipped " " 0 = none
    ∧ shipConfirm "Kerry" " " 0 = none :=
  ⟨by decide,
   (C8_shipping_requires_tracking " " "Kerry" " " 0).1 (by decide),
   (C8_shipping_requires_tracking " " "Kerry" " " 0).2.2.1 (Or.inr (by decide))⟩

/-- C9 counterexample: the farm-orders list's cancel action transitions the
row with id 1 to cancelled setting `cancelled_at` but leaving the
cancellation reason unset, refuting that every cancelling operation sets
both. -/
theorem C9_counterexample :
    (farmOrdersCancel wStoreRes 1 5).reservations
      = [{ id := 1, status := OrderStatus.cancelled, quantity := 2, created_at := 0,
           cancelled_at := some 5, cancellation_reason := none }] := by
  decide

/-- C9 (amended): both sweep jobs set `cancelled_at` and a cancellation
reason on every order they cancel, but the farm-orders cancel button sets
only the status and `cancelled_at`, never touching any row's cancellation
reason. -/
theorem C9_cancellation_fields (now : Int) (o : Order) (s : Store) (rid : Nat) :
    (cancelStale now o).status = OrderStatus.cancelled
    ∧ (cancelStale now o).cancelled_at = some now
    ∧ (cancelStale now o).cancellation_reason = some "Farm did not confirm within 48 hours"
    ∧ (cancelHarvest now o).status = OrderStatus.cancelled
    ∧ (cancelHarvest now o).cancelled_at = some now
    ∧ (cancelHarvest now o).cancellation_reason
      = some "Auto-cancelled: Exceeded 7 days after harvest date"
    ∧ (farmOrdersCancel s rid now).reservations.map (fun r => r.cancellation_reason)
      = s.reservations.map (fun r => r.cancellation_reason) := by
  refine ⟨rfl, rfl, rfl, rfl, rfl, rfl, ?last⟩
  show (s.reservations.map (fun r =>
      if r.id == rid then
        { r with status := OrderStatus.cancelled, cancelled_at := some now }
      else r)).map (fun r => r.cancellation_reason)
    = s.reservations.map (fun r => r.cancellation_reason)
  rw [List.map_map]
  apply List.map_congr_left
  intro r hr
  simp only [Function.comp_apply]
  split <;> rfl

/-- C10: Every review row inserted by the buyer's review submission has its
`farm_id` and `user_id` fields both set equal to the reviewed order's id,
not to the farm's or the buyer's user id. -/
theorem C10_review_row_ids
    (s : Store) (sel : Order) (rating : Nat) (comment : String)
    (hno : s.reviews.find? (fun r => r.order_id == sel.id) = none) :
    ∃ rv : Review,
      (submitReview s sel rating comment false).1.reviews = s.reviews ++ [rv]
      ∧ rv.order_id = sel.id ∧ rv.farm_id = sel.id ∧ rv.user_id = sel.id
      ∧ (sel.farm_id ≠ sel.id → rv.farm_id ≠ sel.farm_id)
      ∧ (sel.user_id ≠ sel.id → rv.user_id ≠ sel.user_id) := by
  refine ⟨{ order_id := sel.id, farm_id := sel.id, user_id := sel.id,
            rating := rating, comment := comment }, ?a, rfl, rfl, rfl, ?b, ?c⟩
  · simp [submitReview, hno]
  · intro h hc
    exact h hc.symm
  · intro h hc
    exact h hc.symm

/-- C10 witness: reviewing order 1 of `wStore` (whose farm id is 20 and
buyer id is 10) inserts a row whose `farm_id` and `user_id` are both 1. -/
theorem C10_witness :
    wStore.reviews.find? (fun r => r.order_id == wOrder1.id) = none
    ∧ wOrder1.farm_id ≠ wOrder1.id
    ∧ ∃ rv : Review,
        (submitReview wStore wOrder1 5 "good" false).1.reviews = wStore.reviews ++ [rv]
        ∧ rv.order_id = wOrder1.id ∧ rv.farm_id = wOrder1.id ∧ rv.user_id = wOrder1.id
        ∧ (wOrder1.farm_id ≠ wOrder1.id → rv.farm_id ≠ wOrder1.farm_id)
        ∧ (wOrder1.user_id ≠ wOrder1.id → rv.user_id ≠ wOrder1.user_id) :=
  ⟨by decide, by decide, C10_review_row_ids wStore wOrder1 5 "good" (by decide)⟩

end Banana

